import Mathlib

/-!
Verification of the HTML document shell of the Akkatecture documentation
site (`src/html.jsx`).  The component is a React class `HTML` whose
`render` method produces one HTML document from three externally supplied
fragments (`headComponents`, `body`, `postBodyComponents`) and the build
mode (`process.env.NODE_ENV === 'production'`).  At module load, in
production mode only, the CSS asset `../public/styles.css` is read into
the module-level variable `inlinedStyles` (initially the empty string); a
read failure is caught and logged, leaving the variable empty.

Shallow embedding choices:
* The build-mode flag is a `Bool` (`production`).
* The fallible build-time asset read is a parameter `cssRead : Option String`:
  `some css` models a successful `require` returning the asset text,
  `none` models the caught exception (the `console.log` side effect is
  outside the model; the catch keeps `inlinedStyles` at `""`).
* The three supplied fragments are opaque pre-rendered markup, matching
  the spec's data model ("opaque fragments ... injected verbatim"): they
  are embedded as `Node.fragment` leaves and never inspected.
* Elements rendered with `dangerouslySetInnerHTML` (the inlined `<style>`
  and the `___gatsby` `<div>`) carry their raw inner HTML as a string
  (`Node.rawInner`); ordinary elements carry child nodes.
* `Node.toHtml` serialises a tree the way React serialises this template:
  attribute values are the fixed literals from the source (none contains
  a character React would escape), fragments and `dangerouslySetInnerHTML`
  contents are emitted verbatim with no escaping.
-/

namespace HtmlShell

/-- A rendered HTML tree.  `elem` is an ordinary element with child nodes,
`rawInner` an element whose inner HTML is set verbatim
(`dangerouslySetInnerHTML`), `fragment` an opaque externally supplied
pre-rendered markup blob. -/
inductive Node : Type where
  | elem (tag : String) (attrs : List (String × String)) (children : List Node) : Node
  | rawInner (tag : String) (attrs : List (String × String)) (inner : String) : Node
  | fragment (markup : String) : Node

/-- `src/html.jsx` lines 8-17: `inlinedStyles` starts as `''`; in
production mode the CSS asset is required; on failure the exception is
caught (and logged) and the variable keeps its initial empty value.  In
development mode the require is never attempted. -/
def inlinedStyles (production : Bool) (cssRead : Option String) : String :=
  if production then
    match cssRead with
    | some css => css
    | none => ""
  else ""

/-- The fixed favicon URL from `src/html.jsx` line 39. -/
def faviconHref : String :=
  "https://raw.githubusercontent.com/Akkatecture/Documentation/master/src/favicon.png"

/-- The docsearch widget stylesheet URL from `src/html.jsx` line 40. -/
def docsearchCssHref : String :=
  "https://cdn.jsdelivr.net/npm/docsearch.js@2/dist/cdn/docsearch.min.css"

/-- The docsearch widget script URL from `src/html.jsx` line 41. -/
def docsearchJsHref : String :=
  "https://cdn.jsdelivr.net/npm/docsearch.js@2/dist/cdn/docsearch.min.js"

/-- `<meta charSet='utf-8' />`, line 32. -/
def charsetMeta : Node := Node.elem "meta" [("charSet", "utf-8")] []

/-- `<meta name='viewport' ... />`, lines 33-36. -/
def viewportMeta : Node :=
  Node.elem "meta"
    [("name", "viewport"), ("content", "width=device-width, initial-scale=1.0")] []

/-- `<link rel='shortcut icon' ... />`, line 39. -/
def faviconLink : Node :=
  Node.elem "link"
    [("rel", "shortcut icon"), ("type", "image/png"), ("href", faviconHref)] []

/-- `<link rel='stylesheet' href=docsearch.min.css />`, line 40. -/
def searchCssLink : Node :=
  Node.elem "link" [("rel", "stylesheet"), ("href", docsearchCssHref)] []

/-- `<script type='text/javascript' src=docsearch.min.js />`, line 41. -/
def searchScriptTag : Node :=
  Node.elem "script" [("type", "text/javascript"), ("src", docsearchJsHref)] []

/-- `<style id='gatsby-inlined-css' dangerouslySetInnerHTML=... />`,
lines 23-28: the inlined style element with the given raw CSS text. -/
def inlinedStyleNode (css : String) : Node :=
  Node.rawInner "style" [("id", "gatsby-inlined-css")] css

/-- `<div id='___gatsby' dangerouslySetInnerHTML=this.props.body />`,
lines 46-49. -/
def gatsbyDiv (body : String) : Node :=
  Node.rawInner "div" [("id", "___gatsby")] body

/-- `HTML.render`, `src/html.jsx` lines 20-54.  `css` is bound to the
inlined style element only in production mode (lines 21-29; otherwise the
JSX hole `{css}` at line 42 is `undefined` and renders nothing).  The head
holds, in source order: charset meta, viewport meta, the supplied head
fragment, favicon link, docsearch stylesheet, docsearch script, and the
`css` hole.  The body holds the `___gatsby` div with the supplied body
markup as raw inner HTML, followed by the supplied post-body fragment. -/
def render (production : Bool) (cssRead : Option String)
    (headComponents : String) (body : String) (postBodyComponents : String) : Node :=
  let css : List Node :=
    if production then [inlinedStyleNode (inlinedStyles production cssRead)] else []
  Node.elem "html" [("lang", "en")]
    [ Node.elem "head" []
        ([ charsetMeta
         , viewportMeta
         , Node.fragment headComponents
         , faviconLink
         , searchCssLink
         , searchScriptTag
         ] ++ css)
    , Node.elem "body" []
        [ gatsbyDiv body
        , Node.fragment postBodyComponents
        ]
    ]

mutual

/-- Number of nodes in a tree satisfying a predicate; supplied fragments
are opaque leaves and are never inspected. -/
def Node.countP (p : Node → Bool) : Node → Nat
  | .elem t a cs => (if p (.elem t a cs) then 1 else 0) + Node.countListP p cs
  | n => if p n then 1 else 0

/-- Number of nodes satisfying a predicate across a list of trees. -/
def Node.countListP (p : Node → Bool) : List Node → Nat
  | [] => 0
  | n :: ns => Node.countP p n + Node.countListP p ns

end

/-- Is this node the inlined-style element (a `<style>` with
`id='gatsby-inlined-css'`)? -/
def isInlinedStyle : Node → Bool
  | .rawInner t attrs _ => t == "style" && attrs.contains ("id", "gatsby-inlined-css")
  | _ => false

mutual

/-- The raw CSS contents of the inlined-style elements of a tree, in
document order. -/
def styleTexts : Node → List String
  | .elem _ _ cs => styleTextsList cs
  | .rawInner t attrs inner =>
      if isInlinedStyle (.rawInner t attrs inner) then [inner] else []
  | .fragment _ => []

/-- `styleTexts` across a list of trees. -/
def styleTextsList : List Node → List String
  | [] => []
  | n :: ns => styleTexts n ++ styleTextsList ns

end

/-- Is this node the favicon link element? -/
def isFaviconLink : Node → Bool
  | .elem t attrs _ => t == "link" && attrs.contains ("rel", "shortcut icon")
  | _ => false

/-- Is this node the docsearch widget stylesheet link? -/
def isSearchCssLink : Node → Bool
  | .elem t attrs _ => t == "link" && attrs.contains ("href", docsearchCssHref)
  | _ => false

/-- Is this node the docsearch widget script element? -/
def isSearchScriptTag : Node → Bool
  | .elem t attrs _ => t == "script" && attrs.contains ("src", docsearchJsHref)
  | _ => false

/-- Is this node an element with the given tag? -/
def isTag (t : String) : Node → Bool
  | .elem t' _ _ => t' == t
  | _ => false

/-- Is this node the `___gatsby` wrapper div? -/
def isGatsbyDiv : Node → Bool
  | .rawInner t attrs _ => t == "div" && attrs.contains ("id", "___gatsby")
  | _ => false

/-- The child list of the `<head>` element of a rendered document. -/
def docHead : Node → List Node
  | .elem "html" _ [Node.elem "head" _ hs, _] => hs
  | _ => []

/-- The child list of the `<body>` element of a rendered document. -/
def docBody : Node → List Node
  | .elem "html" _ [_, Node.elem "body" _ bs] => bs
  | _ => []

/-- The tag of the root element of a document ( `""` for a non-element). -/
def rootTag : Node → String
  | .elem t _ _ => t
  | _ => ""

/-- The attribute list of the root element of a document. -/
def rootAttrs : Node → List (String × String)
  | .elem _ a _ => a
  | _ => []

/-- One serialised attribute, ` key="value"`.  Every attribute value in the
template is a fixed literal containing no character React would escape, so
the serialisation emits values verbatim. -/
def attrText (a : String × String) : String :=
  " " ++ a.1 ++ "=\x22" ++ a.2 ++ "\x22"

/-- Serialised attribute list. -/
def attrsText : List (String × String) → String
  | [] => ""
  | a :: as => attrText a ++ attrsText as

mutual

/-- Serialisation of a rendered tree.  Every element is emitted as an
open tag, its contents, and a close tag; `dangerouslySetInnerHTML`
contents and supplied fragments are emitted verbatim, with no escaping,
exactly as React emits them for this template. -/
def Node.toHtml : Node → String
  | .elem t attrs cs => "<" ++ t ++ attrsText attrs ++ ">" ++ nodesToHtml cs ++ "</" ++ t ++ ">"
  | .rawInner t attrs inner => "<" ++ t ++ attrsText attrs ++ ">" ++ inner ++ "</" ++ t ++ ">"
  | .fragment s => s

/-- Serialisation of a list of trees, concatenated in order. -/
def nodesToHtml : List Node → String
  | [] => ""
  | n :: ns => Node.toHtml n ++ nodesToHtml ns

end

/-- The serialised document up to (and excluding) the supplied head
fragment: the html and head open tags and the two fixed meta elements. -/
def docOpenText : String :=
  "<html lang=\x22en\x22><head><meta charSet=\x22utf-8\x22></meta><meta name=\x22viewport\x22 content=\x22width=device-width, initial-scale=1.0\x22></meta>"

/-- The serialised document between the supplied head fragment and the
supplied body markup: favicon link, docsearch stylesheet and script, the
inlined style element (production mode only), the head close tag, the
body open tag and the `___gatsby` div open tag. -/
def headToBodyText (production : Bool) (cssRead : Option String) : String :=
  "<link rel=\x22shortcut icon\x22 type=\x22image/png\x22 href=\x22https://raw.githubusercontent.com/Akkatecture/Documentation/master/src/favicon.png\x22></link><link rel=\x22stylesheet\x22 href=\x22https://cdn.jsdelivr.net/npm/docsearch.js@2/dist/cdn/docsearch.min.css\x22></link><script type=\x22text/javascript\x22 src=\x22https://cdn.jsdelivr.net/npm/docsearch.js@2/dist/cdn/docsearch.min.js\x22></script>"
    ++ (if production then
          "<style id=\x22gatsby-inlined-css\x22>" ++ inlinedStyles production cssRead ++ "</style>"
        else "")
    ++ "</head><body><div id=\x22___gatsby\x22>"

/-- C1: for every render in production build mode in which the CSS asset
read succeeded, the rendered document contains exactly one inlined-style
element, and its content equals the text of the CSS asset that was read. -/
theorem prod_css_ok_unique_inlined_style (css h b pb : String) :
    Node.countP isInlinedStyle (render true (some css) h b pb) = 1 ∧
    styleTexts (render true (some css) h b pb) = [css] := by
  constructor <;>
    simp [render, Node.countP, Node.countListP, styleTexts, styleTextsList,
      isInlinedStyle, inlinedStyles, inlinedStyleNode, charsetMeta,
      viewportMeta, faviconLink, searchCssLink, searchScriptTag, gatsbyDiv]

/-- C2, counterexample: in production mode with a failed CSS asset read,
the rendered document still contains the inlined-style element (with empty
content), contradicting the claim that the element is absent. -/
theorem prod_css_fail_style_still_present :
    Node.countP isInlinedStyle (render true none "" "" "") ≠ 0 := by
  simp [render, Node.countP, Node.countListP, isInlinedStyle, inlinedStyles,
    inlinedStyleNode, charsetMeta, viewportMeta, faviconLink, searchCssLink,
    searchScriptTag, gatsbyDiv]

/-- C2, amended: for every render in production build mode in which the
CSS asset read failed, rendering still succeeds (the embedding of `render`
is a total function: the exception is caught at module load and only
logged) and the rendered document contains exactly one inlined-style
element whose content is the empty string. -/
theorem prod_css_fail_renders_empty_style (h b pb : String) :
    Node.countP isInlinedStyle (render true none h b pb) = 1 ∧
    styleTexts (render true none h b pb) = [""] := by
  constructor <;>
    simp [render, Node.countP, Node.countListP, styleTexts, styleTextsList,
      isInlinedStyle, inlinedStyles, inlinedStyleNode, charsetMeta,
      viewportMeta, faviconLink, searchCssLink, searchScriptTag, gatsbyDiv]

/-- C3: for every render in development (non-production) build mode,
regardless of the supplied head/body/post-body fragments (and of the CSS
read outcome, which is never consulted), the rendered document contains no
inlined-style element. -/
theorem dev_mode_no_inlined_style (c : Option String) (h b pb : String) :
    Node.countP isInlinedStyle (render false c h b pb) = 0 := by
  simp [render, Node.countP, Node.countListP, isInlinedStyle, charsetMeta,
    viewportMeta, faviconLink, searchCssLink, searchScriptTag, gatsbyDiv]

/-- C4: for every render, in every build mode and for all supplied
fragments, the rendered document contains exactly one favicon link
element, exactly one docsearch stylesheet link element, and exactly one
docsearch script element. -/
theorem fixed_assets_unique (p : Bool) (c : Option String) (h b pb : String) :
    Node.countP isFaviconLink (render p c h b pb) = 1 ∧
    Node.countP isSearchCssLink (render p c h b pb) = 1 ∧
    Node.countP isSearchScriptTag (render p c h b pb) = 1 := by
  cases p <;>
    refine ⟨?_, ?_, ?_⟩ <;>
      simp [render, Node.countP, Node.countListP, isFaviconLink,
        isSearchCssLink, isSearchScriptTag, charsetMeta, viewportMeta,
        faviconLink, searchCssLink, searchScriptTag, inlinedStyleNode,
        gatsbyDiv, faviconHref, docsearchCssHref, docsearchJsHref]

/-- C5: for every render, the head consists of the charset meta, the
viewport meta, the supplied head fragment, the favicon link, the docsearch
stylesheet and script (in source order), plus — in production mode only —
the inlined style block; the body consists of the supplied body markup
injected as raw HTML inside the `___gatsby` div, followed by the supplied
post-body fragment. -/
theorem document_composition (p : Bool) (c : Option String) (h b pb : String) :
    docHead (render p c h b pb) =
      [charsetMeta, viewportMeta, Node.fragment h, faviconLink,
        searchCssLink, searchScriptTag]
        ++ (if p then [inlinedStyleNode (inlinedStyles p c)] else []) ∧
    docBody (render p c h b pb) = [gatsbyDiv b, Node.fragment pb] := by
  cases p <;> simp [render, docHead, docBody]

/-- C6: for every render with non-empty supplied fragments, each fragment
appears verbatim and unescaped in its designated position of the
serialised document: the head fragment between the fixed head opening and
the fixed assets, the body markup inside the `___gatsby` div, and the
post-body fragment between the div close tag and the body close tag. -/
theorem fragments_verbatim (p : Bool) (c : Option String) (h b pb : String)
    (hh : h ≠ "") (hb : b ≠ "") (hpb : pb ≠ "") :
    Node.toHtml (render p c h b pb) =
      docOpenText ++ (h ++ (headToBodyText p c
        ++ (b ++ ("</div>" ++ (pb ++ "</body></html>"))))) := by
  cases p <;>
    simp [render, Node.toHtml, nodesToHtml, attrsText, attrText, docOpenText,
      headToBodyText, charsetMeta, viewportMeta, faviconLink, searchCssLink,
      searchScriptTag, inlinedStyleNode, gatsbyDiv, faviconHref,
      docsearchCssHref, docsearchJsHref, String.append_assoc] <;>
    simp [← String.append_assoc]

/-- C6 witness: concrete non-empty fragments rendered in development
mode. -/
theorem fragments_verbatim_witness :
    ("H" : String) ≠ "" ∧ ("B" : String) ≠ "" ∧ ("P" : String) ≠ "" ∧
    Node.toHtml (render false none "H" "B" "P") =
      docOpenText ++ ("H" ++ (headToBodyText false none
        ++ ("B" ++ ("</div>" ++ ("P" ++ "</body></html>"))))) :=
  ⟨by decide, by decide, by decide,
    fragments_verbatim false none "H" "B" "P" (by decide) (by decide) (by decide)⟩

/-- C7, counterexample: two production renders with identical build-mode
flag and identical head/body/post-body fragments but different CSS asset
texts produce different documents, so the output does not depend on the
mode flag and fragments alone. -/
theorem render_depends_on_css_read :
    render true (some "a") "" "" "" ≠ render true (some "b") "" "" "" := by
  intro heq
  have h2 := congrArg styleTexts heq
  simp [render, styleTexts, styleTextsList, isInlinedStyle, inlinedStyles,
    inlinedStyleNode, charsetMeta, viewportMeta, faviconLink, searchCssLink,
    searchScriptTag, gatsbyDiv] at h2

/-- C7, amended: the render function is deterministic. For any two renders
with the same build-mode flag, the same CSS-read outcome, and the same
head/body/post-body fragment inputs, the produced documents are identical;
the output depends on nothing else (render is a pure function of these
five inputs). -/
theorem render_deterministic (p p' : Bool) (c c' : Option String)
    (h h' b b' pb pb' : String)
    (hp : p = p') (hc : c = c') (hh : h = h') (hb : b = b') (hpb : pb = pb') :
    render p c h b pb = render p' c' h' b' pb' := by
  subst hp hc hh hb hpb
  rfl

/-- C7 witness: the amended determinism theorem applied at concrete
inputs. -/
theorem render_deterministic_witness :
    render true (some "css") "h" "b" "p" = render true (some "css") "h" "b" "p" :=
  render_deterministic true true (some "css") (some "css") "h" "h" "b" "b"
    "p" "p" rfl rfl rfl rfl rfl

/-- C8: when all three supplied fragments are empty strings, rendering
succeeds (render is total) and the resulting document contains exactly one
head element and exactly one body element. -/
theorem empty_fragments_valid_shell (p : Bool) (c : Option String) :
    Node.countP (isTag "head") (render p c "" "" "") = 1 ∧
    Node.countP (isTag "body") (render p c "" "" "") = 1 := by
  cases p <;>
    constructor <;>
      simp [render, Node.countP, Node.countListP, isTag, charsetMeta,
        viewportMeta, faviconLink, searchCssLink, searchScriptTag,
        inlinedStyleNode, gatsbyDiv]

/-- C9: for every render, the direct children of the body element are
exactly the `___gatsby` wrapper div — whose raw inner HTML is the supplied
body markup — followed by the post-body fragment; the wrapper div is
always present, also for an empty body fragment. -/
theorem body_fragment_wrapped_in_gatsby_div (p : Bool) (c : Option String)
    (h b pb : String) :
    docBody (render p c h b pb) = [gatsbyDiv b, Node.fragment pb] ∧
    Node.countP isGatsbyDiv (render p c h b pb) = 1 := by
  cases p <;>
    constructor <;>
      simp [render, docBody, Node.countP, Node.countListP, isGatsbyDiv,
        charsetMeta, viewportMeta, faviconLink, searchCssLink,
        searchScriptTag, inlinedStyleNode, gatsbyDiv]

/-- C10: render is total over its inputs (it is a Lean function returning
a document for every mode, CSS-read outcome, and fragment values; no
exception path exists at render time), the root element is always `html`
with exactly the fixed `lang='en'` attribute, and the charset meta is
always the first child of the head. -/
theorem render_total_root_structure (p : Bool) (c : Option String)
    (h b pb : String) :
    rootTag (render p c h b pb) = "html" ∧
    rootAttrs (render p c h b pb) = [("lang", "en")] ∧
    (docHead (render p c h b pb)).head? = some charsetMeta := by
  cases p <;>
    refine ⟨?_, ?_, ?_⟩ <;> simp [render, rootTag, rootAttrs, docHead]

end HtmlShell
